import Mathlib

/-!
# Verification of `led_group.c`

A shallow embedding of the LED-group mirroring program `src/led_group.c`.

The program creates a userspace LED class device (the "group leader") by
writing a descriptor to `/dev/uleds`, opens the `brightness` attribute of up
to four follower LEDs, and then loops: it blocks reading a brightness value
from the leader handle and fans the value out to every follower by seeking
to offset 0 and writing the decimal text of the value followed by a newline.

The embedding models the OS interaction by oracles (results of `open`,
`write` and `read` calls) and records every externally visible action in an
event trace, so that resource-lifetime properties (every opened descriptor
is closed exactly once) and fan-out properties are provable as statements
about the trace.
-/

namespace LedGroup

/-- `MAX_LEDS_IN_GROUP` from the source (`#define MAX_LEDS_IN_GROUP 4`),
which is also `ARRAY_SIZE(led_group->led_fds)`. -/
def MAX_LEDS_IN_GROUP : Nat := 4

/-- `static int const max_brightness = 100;` -/
def max_brightness : Int := 100

/-- `LED_MAX_NAME_SIZE` from `<linux/uleds.h>`. -/
def LED_MAX_NAME_SIZE : Nat := 64

/-- One externally visible action of the program: a system call on a file
descriptor, or a diagnostic message.  Return values of calls whose result
the program inspects are recorded in the event. -/
inductive Event where
  /-- an `open(path, ...)` call returning `ret` -/
  | openEv (path : String) (ret : Int)
  /-- the registration `write` of the `uleds_user_dev` record in
  `create_led_group_leader` -/
  | regWrite (fd : Int) (name : String) (maxb : Int) (ret : Int)
  /-- `lseek(fd, off, SEEK_SET)` -/
  | lseekEv (fd : Int) (off : Int)
  /-- `write(fd, data, strlen(data))` -/
  | writeEv (fd : Int) (data : String)
  /-- `read(fd, &brightness, sizeof(brightness))` returning `ret` -/
  | readEv (fd : Int) (ret : Int)
  /-- `close(fd)` -/
  | closeEv (fd : Int)
  /-- a `perror`/`fprintf(stderr, ...)` diagnostic -/
  | perrorEv (msg : String)
  /-- the usage message printed by `main` when arguments are missing -/
  | usageEv
deriving DecidableEq

/-- `struct led_group`: a fixed array of 4 descriptors plus a count.  The C
array `int led_fds[MAX_LEDS_IN_GROUP]` is embedded as a total function from
index to descriptor; only indices `< count` are ever read, and the capacity
check `count >= ARRAY_SIZE(led_fds)` keeps every written index below 4. -/
structure led_group where
  count : Nat
  led_fds : Nat → Int

/-- The zero-initialised group `{ .count = 0 }` of `main` (a designated
initialiser zero-fills the rest of the struct). -/
def led_group.init : led_group := { count := 0, led_fds := fun _ => 0 }

/-- `snprintf` into a buffer of `size` bytes: at most `size - 1` characters
are kept (the last byte holds the terminating NUL).  All characters produced
by the program are ASCII, so bytes and characters coincide. -/
def snprintf_trunc (size : Nat) (s : String) : String :=
  (s.toList.take (size - 1)).asString

/-- The buffer produced by `snprintf(buf, sizeof buf, "%d\n", brightness)`
in `update_led`, where `buf` is `char buf[20]`. -/
def snprintf_buf (brightness : Int) : String :=
  snprintf_trunc 20 (toString brightness ++ "\n")

/-- `update_led(fd, brightness)`: format the value, seek to offset 0, write
the text; if the write fails (`wres` is the result of the retried `write`
call), report via `perror` but return normally.  `wres` maps a descriptor
and the data written to the call's return value. -/
def update_led (wres : Int → String → Int) (fd : Int) (brightness : Int) :
    List Event :=
  let buf := snprintf_buf brightness
  [Event.lseekEv fd 0, Event.writeEv fd buf] ++
    (if wres fd buf < 0 then [Event.perrorEv "failed to write to group LED"]
     else [])

/-- `update_led_group(group, brightness)`: call `update_led` on the member
at each index `0 <= i < count`, in ascending index order. -/
def update_led_group (wres : Int → String → Int) (group : led_group)
    (brightness : Int) : List Event :=
  (List.range group.count).flatMap
    (fun i => update_led wres (group.led_fds i) brightness)

/-- `add_led_by_fd_to_led_group`: reject when the set is full, otherwise
store `fd` at index `count` and increment `count`. -/
def add_led_by_fd_to_led_group (g : led_group) (fd : Int) :
    led_group × Bool :=
  if g.count ≥ MAX_LEDS_IN_GROUP then
    (g, false)
  else
    ({ count := g.count + 1,
       led_fds := fun i => if i = g.count then fd else g.led_fds i }, true)

/-- The attribute path `"/sys/class/leds/%s/brightness"` built by
`snprintf` into `char led_brightness_path[LED_MAX_NAME_SIZE + 30]`. -/
def led_brightness_path (led_name : String) : String :=
  snprintf_trunc (LED_MAX_NAME_SIZE + 30)
    ("/sys/class/leds/" ++ led_name ++ "/brightness")

/-- `add_led_by_name_to_led_group`: build the attribute path, `open` it
write-only (`open_ret` is the call's result), fail if the open failed, else
try to append the descriptor.  On any failure after a successful open
(`added` false with `fd >= 0`), close the freshly opened descriptor before
returning. -/
def add_led_by_name_to_led_group (open_ret : Int) (g : led_group)
    (led_name : String) : led_group × Bool × List Event :=
  let path := led_brightness_path led_name
  let fd := open_ret
  if fd < 0 then
    (g, false, [Event.openEv path fd])
  else
    let r := add_led_by_fd_to_led_group g fd
    if r.2 then
      (r.1, true, [Event.openEv path fd])
    else
      (r.1, false, [Event.openEv path fd, Event.closeEv fd])

/-- `close_led_group_leds`: `close` the member at each index
`0 <= i < count`.  The count is not reset. -/
def close_led_group_leds (g : led_group) : List Event :=
  (List.range g.count).map (fun i => Event.closeEv (g.led_fds i))

/-- `track_led_brightness(fd, led_group)`: loop reading one `int` from the
leader descriptor and fanning it out.  The sequence of (retried) `read`
results is given as a list of pairs `(ret, value)`; the loop stops (second
component `true`, the `goto done` branch) exactly when a read returns `-1`,
and otherwise fans out the buffer contents and continues.  An exhausted
list models the loop still blocked in `read` waiting for more data. -/
def track_led_brightness (wres : Int → String → Int) (fd : Int)
    (g : led_group) : List (Int × Int) → List Event × Bool
  | [] => ([], false)
  | (ret, b) :: rest =>
    if ret = -1 then
      ([Event.readEv fd ret,
        Event.perrorEv "Failed to read brightness from /dev/uleds"], true)
    else
      let r := track_led_brightness wres fd g rest
      (Event.readEv fd ret :: (update_led_group wres g b ++ r.1), r.2)

/-- The OS-interaction oracle for one run of `main`: results of the
`open("/dev/uleds")` call, of the registration `write`, of the i-th
follower `open` call, of brightness writes during the loop, and the
sequence of `read` results seen by the loop. -/
structure Oracles where
  uleds_open : Int
  uleds_write : Int
  follower_open : Nat → Int
  wres : Int → String → Int
  reads : List (Int × Int)

/-- `strlcpy(dest, src, len)` into a `len`-byte buffer keeps at most
`len - 1` characters of `src`. -/
def strlcpy_str (src : String) (len : Nat) : String :=
  (src.toList.take (len - 1)).asString

/-- `create_led_group_leader(led_name)`: copy the (possibly truncated) name
and `max_brightness` into a `uleds_user_dev` record, open `/dev/uleds`;
on open failure report and return the negative descriptor; otherwise write
the record; if that write returns `-1`, report, close the descriptor and
return `-1`; else return the open descriptor. -/
def create_led_group_leader (o : Oracles) (led_name : String) :
    Int × List Event :=
  let name := strlcpy_str led_name LED_MAX_NAME_SIZE
  let fd := o.uleds_open
  if fd < 0 then
    (fd, [Event.openEv "/dev/uleds" fd,
          Event.perrorEv "Failed to create LED group leader"])
  else if o.uleds_write = -1 then
    (-1, [Event.openEv "/dev/uleds" fd,
          Event.regWrite fd name max_brightness o.uleds_write,
          Event.perrorEv "Failed to create LED group leader",
          Event.closeEv fd])
  else
    (fd, [Event.openEv "/dev/uleds" fd,
          Event.regWrite fd name max_brightness o.uleds_write])

/-- The follower-population `for` loop of `main` (arguments
`argv[2] ... argv[argc-1]`): add each name in turn; on the first failure
print the diagnostic naming the rejected follower and abort with failure.
`idx` numbers the `open` calls so that the oracle can give each its own
result. -/
def add_followers (o : Oracles) (g : led_group) (idx : Nat) :
    List String → led_group × Bool × List Event
  | [] => (g, true, [])
  | name :: rest =>
    let r := add_led_by_name_to_led_group (o.follower_open idx) g name
    if r.2.1 then
      let r2 := add_followers o r.1 (idx + 1) rest
      (r2.1, r2.2.1, r.2.2 ++ r2.2.2)
    else
      (r.1, false,
        r.2.2 ++ [Event.perrorEv ("failed to add LED " ++ name ++ " to group")])

/-- `main(argc, argv)`: `argv` includes the program name, so `argc` is
`argv.length`.  Fewer than 4 arguments → usage message, `EXIT_FAILURE`.
Then create the leader; on failure (`fd == -1`) report and fail.  Then add
every follower; on failure fail.  Otherwise run the mirror loop and exit
with `EXIT_SUCCESS`.  Every exit goes through the `done:` label, which
closes `fd` when `fd >= 0` and then closes the group members. -/
def main_run (o : Oracles) (argv : List String) : Int × List Event :=
  if argv.length < 4 then
    (1, [Event.usageEv])
  else
    let r1 := create_led_group_leader o (argv.getD 1 "")
    let fd := r1.1
    if fd = -1 then
      (1, r1.2 ++ [Event.perrorEv "Failed to open /dev/uleds"])
    else
      let r2 := add_followers o led_group.init 0 (argv.drop 2)
      let g := r2.1
      let evdone :=
        (if fd ≥ 0 then [Event.closeEv fd] else []) ++ close_led_group_leds g
      if r2.2.1 then
        let r3 := track_led_brightness o.wres fd g o.reads
        (0, r1.2 ++ r2.2.2 ++ r3.1 ++ evdone)
      else
        (1, r1.2 ++ r2.2.2 ++ evdone)

/-! ## Trace observations -/

/-- Selects the fan-out actions (seeks and brightness writes) of a trace. -/
def isSeekWrite : Event → Bool
  | Event.lseekEv _ _ => true
  | Event.writeEv _ _ => true
  | _ => false

/-- The descriptors returned by successful `open` calls of a trace, in
order of the calls. -/
def openedOk : List Event → List Int
  | [] => []
  | Event.openEv _ ret :: rest =>
    if 0 ≤ ret then ret :: openedOk rest else openedOk rest
  | _ :: rest => openedOk rest

/-- How many times descriptor `f` is `close`d in a trace. -/
def closeCount (tr : List Event) (f : Int) : Nat :=
  tr.countP fun e =>
    match e with
    | Event.closeEv fd => fd == f
    | _ => false

/-- How many successful `open` calls of a trace returned descriptor `f`. -/
def openCount (tr : List Event) (f : Int) : Nat :=
  (openedOk tr).count f

/-- The member descriptors of a group, in index order. -/
def membersList (g : led_group) : List Int :=
  (List.range g.count).map g.led_fds

/-- How many members of the group are descriptor `f`. -/
def membersCount (g : led_group) (f : Int) : Nat :=
  (membersList g).count f

/-- The expected fan-out trace: for each member index in ascending order, a
seek to offset 0 followed by a write of `buf`. -/
def fanoutWrites (g : led_group) (buf : String) : List Event :=
  (List.range g.count).flatMap
    (fun i => [Event.lseekEv (g.led_fds i) 0, Event.writeEv (g.led_fds i) buf])

/-- Events that acquire or release a descriptor. -/
def isOpenClose : Event → Bool
  | Event.openEv _ _ => true
  | Event.closeEv _ => true
  | _ => false

/-- The three conditions of `main` that must all hold for control to reach
the mirror loop: enough arguments, leader creation returned a descriptor
other than `-1`, and every follower was added. -/
def setup_ok (o : Oracles) (argv : List String) : Prop :=
  4 ≤ argv.length ∧
  (create_led_group_leader o (argv.getD 1 "")).1 ≠ -1 ∧
  (add_followers o led_group.init 0 (argv.drop 2)).2.1 = true

instance (o : Oracles) (argv : List String) : Decidable (setup_ok o argv) :=
  inferInstanceAs (Decidable (_ ∧ _ ∧ _))

/-! ## Formatting lemmas: `snprintf(buf, 20, "%d\n", v)` never truncates
for a C `int` value `v`. -/

theorem toString_int_length_le (b : Int) (h1 : -(2 ^ 31) ≤ b)
    (h2 : b < 2 ^ 31) : (toString b).length ≤ 11 := by
  cases b with
  | ofNat m =>
    have hm : m < 10 ^ 10 := by
      have h3 : (m : Int) < 2 ^ 31 := h2
      omega
    have : (Nat.repr m).length ≤ 10 := Nat.repr_length m 10 (by norm_num) hm
    calc (toString (Int.ofNat m)).length = (Nat.repr m).length := rfl
      _ ≤ 10 := this
      _ ≤ 11 := by norm_num
  | negSucc m =>
    have hm : m + 1 < 10 ^ 10 := by
      have : -(2 ^ 31) ≤ (Int.negSucc m) := h1
      rw [Int.negSucc_eq] at this
      omega
    have hr : (Nat.repr (m + 1)).length ≤ 10 :=
      Nat.repr_length (m + 1) 10 (by norm_num) hm
    have : toString (Int.negSucc m) = "-" ++ Nat.repr (m + 1) := rfl
    rw [this, String.length_append]
    have : ("-" : String).length = 1 := rfl
    omega

theorem snprintf_buf_eq (b : Int) (h1 : -(2 ^ 31) ≤ b) (h2 : b < 2 ^ 31) :
    snprintf_buf b = toString b ++ "\n" := by
  have hlen : (toString b ++ "\n").toList.length ≤ 19 := by
    have h3 : (toString b ++ "\n").toList.length = (toString b ++ "\n").length := rfl
    rw [h3, String.length_append]
    have h4 : ("\n" : String).length = 1 := rfl
    have := toString_int_length_le b h1 h2
    omega
  unfold snprintf_buf snprintf_trunc
  rw [show (20 : Nat) - 1 = 19 from rfl, List.take_of_length_le hlen,
    String.asString_toList]

/-! ## Fan-out trace lemmas -/

theorem update_led_filter (wres : Int → String → Int) (fd b : Int) :
    (update_led wres fd b).filter isSeekWrite =
      [Event.lseekEv fd 0, Event.writeEv fd (snprintf_buf b)] := by
  by_cases h : wres fd (snprintf_buf b) < 0 <;>
    simp [update_led, isSeekWrite, h]

theorem update_led_group_filter (wres : Int → String → Int) (g : led_group)
    (b : Int) :
    (update_led_group wres g b).filter isSeekWrite =
      fanoutWrites g (snprintf_buf b) := by
  unfold update_led_group fanoutWrites
  rw [List.filter_flatMap]
  exact List.flatMap_congr (fun i _ => update_led_filter wres (g.led_fds i) b)

/-- Appending a descriptor to a non-full group puts it at index `count`
and keeps all earlier members. -/
theorem membersList_add (g : led_group) (fd : Int)
    (h : g.count < MAX_LEDS_IN_GROUP) :
    membersList (add_led_by_fd_to_led_group g fd).1 = membersList g ++ [fd] := by
  unfold add_led_by_fd_to_led_group membersList
  rw [if_neg (by omega)]
  simp only [List.range_succ, List.map_append, List.map_cons, List.map_nil,
    if_pos rfl]
  congr 1
  exact List.map_congr_left (fun i hi => by
    have : i < g.count := List.mem_range.mp hi
    simp [Nat.ne_of_lt this])

/-- Each member of a group is closed once by `close_led_group_leds`. -/
theorem closeCount_close_led_group_leds (g : led_group) (f : Int) :
    closeCount (close_led_group_leds g) f = membersCount g f := by
  unfold closeCount close_led_group_leds membersCount membersList
  rw [List.count_eq_countP, List.countP_map, List.countP_map]
  rfl

/-- C1: for every brightness value `v` successfully read from the leader
handle (`read` result not `-1`), the loop invokes the fan-out on the full
follower set with `v` unchanged, and the fan-out's seek/write actions are,
for each member in index order, a seek to offset 0 followed by a write of
the decimal text of `v` and a newline. -/
theorem fanout_writes_decimal_of_read (wres : Int → String → Int)
    (g : led_group) (fd ret b : Int) (rest : List (Int × Int))
    (hb1 : -(2 ^ 31) ≤ b) (hb2 : b < 2 ^ 31) (hret : ret ≠ -1) :
    (track_led_brightness wres fd g ((ret, b) :: rest)).1 =
      Event.readEv fd ret ::
        (update_led_group wres g b ++ (track_led_brightness wres fd g rest).1) ∧
    (update_led_group wres g b).filter isSeekWrite =
      fanoutWrites g (toString b ++ "\n") := by
  refine ⟨by simp [track_led_brightness, hret], ?_⟩
  rw [update_led_group_filter, snprintf_buf_eq b hb1 hb2]

/-- Witness for C1 at `v = 42` on a two-member set. -/
theorem fanout_writes_decimal_of_read_witness :
    (-(2 ^ 31) ≤ (42 : Int) ∧ (42 : Int) < 2 ^ 31 ∧ (4 : Int) ≠ -1) ∧
    ((track_led_brightness (fun _ _ => 1) 3 ⟨2, fun i => 5 + (i : Int)⟩
        [((4 : Int), (42 : Int))]).1 =
      Event.readEv 3 4 ::
        (update_led_group (fun _ _ => 1) ⟨2, fun i => 5 + (i : Int)⟩ 42 ++
          (track_led_brightness (fun _ _ => 1) 3 ⟨2, fun i => 5 + (i : Int)⟩ []).1) ∧
     (update_led_group (fun _ _ => 1) ⟨2, fun i => 5 + (i : Int)⟩ 42).filter
        isSeekWrite =
       fanoutWrites ⟨2, fun i => 5 + (i : Int)⟩ (toString (42 : Int) ++ "\n")) :=
  ⟨⟨by norm_num, by norm_num, by norm_num⟩,
   fanout_writes_decimal_of_read _ _ _ _ _ _ (by norm_num) (by norm_num)
     (by norm_num)⟩

/-- C5: if the write to one member fails during fan-out, the failure is
reported (a `perror` event appears), the seek/write actions still cover
every member, and the mirror loop does not terminate because of it (its
stop flag is the one of the remaining reads). -/
theorem fanout_best_effort (wres : Int → String → Int) (g : led_group)
    (fd ret b : Int) (rest : List (Int × Int)) (i : Nat)
    (hi : i < g.count) (hw : wres (g.led_fds i) (snprintf_buf b) < 0)
    (hret : ret ≠ -1) :
    Event.perrorEv "failed to write to group LED" ∈ update_led_group wres g b ∧
    (update_led_group wres g b).filter isSeekWrite =
      fanoutWrites g (snprintf_buf b) ∧
    (track_led_brightness wres fd g ((ret, b) :: rest)).2 =
      (track_led_brightness wres fd g rest).2 := by
  refine ⟨?_, update_led_group_filter wres g b, by simp [track_led_brightness, hret]⟩
  unfold update_led_group
  rw [List.mem_flatMap]
  exact ⟨i, List.mem_range.mpr hi, by simp [update_led, hw]⟩

/-- Witness for C5: member 0 (descriptor 5) fails to write, on a
two-member set. -/
theorem fanout_best_effort_witness :
    (0 < 2 ∧
      (fun fd _ => if fd = 5 then (-1 : Int) else 1) ((5 : Int) + (0 : Nat))
        (snprintf_buf 42) < 0 ∧
      (4 : Int) ≠ -1) ∧
    (Event.perrorEv "failed to write to group LED" ∈
      update_led_group (fun fd _ => if fd = 5 then (-1 : Int) else 1)
        ⟨2, fun i => 5 + (i : Int)⟩ 42 ∧
     (update_led_group (fun fd _ => if fd = 5 then (-1 : Int) else 1)
        ⟨2, fun i => 5 + (i : Int)⟩ 42).filter isSeekWrite =
       fanoutWrites ⟨2, fun i => 5 + (i : Int)⟩ (snprintf_buf 42) ∧
     (track_led_brightness (fun fd _ => if fd = 5 then (-1 : Int) else 1) 3
        ⟨2, fun i => 5 + (i : Int)⟩ [((4 : Int), (42 : Int))]).2 =
       (track_led_brightness (fun fd _ => if fd = 5 then (-1 : Int) else 1) 3
        ⟨2, fun i => 5 + (i : Int)⟩ []).2) :=
  ⟨⟨by norm_num, by norm_num, by norm_num⟩,
   fanout_best_effort _ _ _ _ _ _ 0 (by norm_num) (by norm_num) (by norm_num)⟩

/-- C9: a successful add appends the new descriptor at index `count`,
leaves indices `0..count-1` unchanged, and the fan-out's actions are the
members' seek/write pairs in ascending index order, so values reach the
followers in command-line order. -/
theorem add_appends_and_fanout_ascending (g : led_group) (fd : Int)
    (wres : Int → String → Int) (b : Int) (h : g.count < MAX_LEDS_IN_GROUP) :
    (add_led_by_fd_to_led_group g fd).2 = true ∧
    (add_led_by_fd_to_led_group g fd).1.count = g.count + 1 ∧
    (add_led_by_fd_to_led_group g fd).1.led_fds g.count = fd ∧
    (∀ i, i < g.count →
      (add_led_by_fd_to_led_group g fd).1.led_fds i = g.led_fds i) ∧
    membersList (add_led_by_fd_to_led_group g fd).1 = membersList g ++ [fd] ∧
    (update_led_group wres (add_led_by_fd_to_led_group g fd).1 b).filter
        isSeekWrite =
      fanoutWrites (add_led_by_fd_to_led_group g fd).1 (snprintf_buf b) := by
  have hmem := membersList_add g fd h
  have hflt := update_led_group_filter wres (add_led_by_fd_to_led_group g fd).1 b
  unfold add_led_by_fd_to_led_group at *
  rw [if_neg (by omega)] at *
  exact ⟨rfl, rfl, by simp, fun i hi => by simp [Nat.ne_of_lt hi], hmem, hflt⟩

/-- Witness for C9 on a one-member set gaining descriptor 9. -/
theorem add_appends_and_fanout_ascending_witness :
    ((1 : Nat) < MAX_LEDS_IN_GROUP) ∧
    ((add_led_by_fd_to_led_group ⟨1, fun _ => 5⟩ 9).2 = true ∧
     (add_led_by_fd_to_led_group ⟨1, fun _ => 5⟩ 9).1.count = 1 + 1 ∧
     (add_led_by_fd_to_led_group ⟨1, fun _ => 5⟩ 9).1.led_fds 1 = 9 ∧
     (∀ i, i < 1 →
       (add_led_by_fd_to_led_group ⟨1, fun _ => 5⟩ 9).1.led_fds i =
         (fun _ => (5 : Int)) i) ∧
     membersList (add_led_by_fd_to_led_group ⟨1, fun _ => 5⟩ 9).1 =
       membersList ⟨1, fun _ => 5⟩ ++ [9] ∧
     (update_led_group (fun _ _ => 1)
        (add_led_by_fd_to_led_group ⟨1, fun _ => 5⟩ 9).1 42).filter isSeekWrite =
       fanoutWrites (add_led_by_fd_to_led_group ⟨1, fun _ => 5⟩ 9).1
         (snprintf_buf 42)) :=
  ⟨by norm_num [MAX_LEDS_IN_GROUP],
   add_appends_and_fanout_ascending ⟨1, fun _ => 5⟩ 9 (fun _ _ => 1) 42
     (by norm_num [MAX_LEDS_IN_GROUP])⟩

/-- C10: when the follower's attribute file opens successfully but the
append fails (set at capacity), the freshly opened descriptor is closed
before the add returns failure: the call's trace is exactly the open
followed by the close. -/
theorem failed_add_closes_opened_fd (open_ret : Int) (g : led_group)
    (name : String) (hfd : 0 ≤ open_ret)
    (hcap : MAX_LEDS_IN_GROUP ≤ g.count) :
    (add_led_by_name_to_led_group open_ret g name).2.1 = false ∧
    (add_led_by_name_to_led_group open_ret g name).2.2 =
      [Event.openEv (led_brightness_path name) open_ret,
       Event.closeEv open_ret] := by
  have h1 : ¬ open_ret < 0 := by omega
  have h2 : g.count ≥ MAX_LEDS_IN_GROUP := hcap
  simp [add_led_by_name_to_led_group, add_led_by_fd_to_led_group, h1, h2]

/-- Witness for C10: a full set and a successful open of descriptor 7. -/
theorem failed_add_closes_opened_fd_witness :
    ((0 : Int) ≤ 7 ∧ MAX_LEDS_IN_GROUP ≤ (4 : Nat)) ∧
    ((add_led_by_name_to_led_group 7 ⟨4, fun _ => 0⟩ "led4").2.1 = false ∧
     (add_led_by_name_to_led_group 7 ⟨4, fun _ => 0⟩ "led4").2.2 =
       [Event.openEv (led_brightness_path "led4") 7, Event.closeEv 7]) :=
  ⟨⟨by norm_num, by norm_num [MAX_LEDS_IN_GROUP]⟩,
   failed_add_closes_opened_fd 7 ⟨4, fun _ => 0⟩ "led4" (by norm_num)
     (by norm_num [MAX_LEDS_IN_GROUP])⟩

/-- C2 counterexample: adding a 5th follower to a full set does open a
handle — the attribute file is opened (successfully, descriptor 7 here)
before the capacity check rejects the append; the claim that the add fails
"without opening any handle" is false. -/
theorem add_at_capacity_opens_a_handle_cex :
    (add_led_by_name_to_led_group 7 ⟨4, fun _ => 0⟩ "led4").2.2 =
      [Event.openEv "/sys/class/leds/led4/brightness" 7, Event.closeEv 7] ∧
    openedOk (add_led_by_name_to_led_group 7 ⟨4, fun _ => 0⟩ "led4").2.2 =
      [7] := by decide

/-- C2 (amended): adding a follower to a full set fails without mutating
the set, but the attribute file is opened first; when that open succeeds
the descriptor is closed again before the call returns (the capacity check
happens in the append step, after the open, not before it). -/
theorem add_at_capacity_fails_without_mutation (open_ret : Int)
    (g : led_group) (name : String) (hcap : MAX_LEDS_IN_GROUP ≤ g.count) :
    (add_led_by_name_to_led_group open_ret g name).1 = g ∧
    (add_led_by_name_to_led_group open_ret g name).2.1 = false ∧
    (0 ≤ open_ret →
      (add_led_by_name_to_led_group open_ret g name).2.2 =
        [Event.openEv (led_brightness_path name) open_ret,
         Event.closeEv open_ret]) ∧
    (open_ret < 0 →
      (add_led_by_name_to_led_group open_ret g name).2.2 =
        [Event.openEv (led_brightness_path name) open_ret]) := by
  have h2 : g.count ≥ MAX_LEDS_IN_GROUP := hcap
  by_cases h : open_ret < 0
  · simp [add_led_by_name_to_led_group, add_led_by_fd_to_led_group, h, h2]
  · simp [add_led_by_name_to_led_group, add_led_by_fd_to_led_group, h, h2]

/-- Witness for C2 (amended) on a full set with a successful open. -/
theorem add_at_capacity_fails_without_mutation_witness :
    (MAX_LEDS_IN_GROUP ≤ (4 : Nat)) ∧
    ((add_led_by_name_to_led_group 7 ⟨4, fun _ => 1⟩ "x").1 =
      (⟨4, fun _ => 1⟩ : led_group) ∧
     (add_led_by_name_to_led_group 7 ⟨4, fun _ => 1⟩ "x").2.1 = false ∧
     ((0 : Int) ≤ 7 →
       (add_led_by_name_to_led_group 7 ⟨4, fun _ => 1⟩ "x").2.2 =
         [Event.openEv (led_brightness_path "x") 7, Event.closeEv 7]) ∧
     ((7 : Int) < 0 →
       (add_led_by_name_to_led_group 7 ⟨4, fun _ => 1⟩ "x").2.2 =
         [Event.openEv (led_brightness_path "x") 7])) :=
  ⟨by norm_num [MAX_LEDS_IN_GROUP],
   add_at_capacity_fails_without_mutation 7 ⟨4, fun _ => 1⟩ "x"
     (by norm_num [MAX_LEDS_IN_GROUP])⟩

/-- C8 counterexample: `close_led_group_leds` does not reset the count, so
after a first close-all on a one-member set the set is unchanged and a
second invocation again emits `close(5)` — two invocations close
descriptor 5 twice, refuting "invoking it again on an already-closed set
is a no-op". -/
theorem close_all_second_call_not_noop_cex :
    close_led_group_leds ⟨1, fun _ => 5⟩ = [Event.closeEv 5] ∧
    closeCount (close_led_group_leds ⟨1, fun _ => 5⟩ ++
        close_led_group_leds ⟨1, fun _ => 5⟩) 5 = 2 := by decide

/-- C8 (amended): close-all on an empty set is a no-op (and that is the
only no-op case); each invocation closes every stored member once, so a
repeat invocation on a non-empty set re-closes the same descriptors
rather than doing nothing. -/
theorem close_all_noop_iff_empty (g : led_group) :
    (close_led_group_leds g = [] ↔ g.count = 0) ∧
    (∀ f : Int, closeCount (close_led_group_leds g) f = membersCount g f) := by
  constructor
  · simp [close_led_group_leds, List.range_eq_nil]
  · exact closeCount_close_led_group_leds g

/-- C4 counterexample: a read returning 0 (end-of-stream) does not stop the
mirror loop: the stop flag stays `false` and the loop even fans out the
(stale) buffer contents before blocking again. -/
theorem eof_read_does_not_stop_loop_cex :
    (track_led_brightness (fun _ _ => 1) 3 ⟨1, fun _ => 5⟩
        [((0 : Int), (7 : Int))]).2 = false ∧
    (track_led_brightness (fun _ _ => 1) 3 ⟨1, fun _ => 5⟩
        [((0 : Int), (7 : Int))]).1 =
      Event.readEv 3 0 ::
        update_led_group (fun _ _ => 1) ⟨1, fun _ => 5⟩ 7 := by decide

/-- C4 (amended): the mirror loop reaches its terminal state exactly when a
read returns `-1` (an error); on every other read result — including 0,
the end-of-stream indication — it keeps running and propagates each
buffer value verbatim, with no validation against `max_brightness`. -/
theorem loop_stops_iff_read_error (wres : Int → String → Int) (fd : Int)
    (g : led_group) (reads : List (Int × Int)) :
    ((track_led_brightness wres fd g reads).2 = true ↔
      ∃ p ∈ reads, p.1 = -1) ∧
    ((∀ p ∈ reads, p.1 ≠ -1) →
      (track_led_brightness wres fd g reads).1 =
        reads.flatMap
          (fun p => Event.readEv fd p.1 :: update_led_group wres g p.2)) := by
  induction reads with
  | nil => simp [track_led_brightness]
  | cons p rest ih =>
    obtain ⟨r, b⟩ := p
    by_cases h : r = -1
    · subst h
      simp [track_led_brightness]
    · constructor
      · simpa [track_led_brightness, h] using ih.1
      · intro hall
        have h2 := ih.2 (fun q hq => hall q (List.mem_cons_of_mem _ hq))
        simp [track_led_brightness, h, h2]

/-- Witness for C4 (amended): one erroring read stops the loop; the
error-free two-read stream yields the full fan-out trace. -/
theorem loop_stops_iff_read_error_witness :
    (track_led_brightness (fun _ _ => 1) 3 ⟨1, fun _ => 5⟩
        [((-1 : Int), (0 : Int))]).2 = true ∧
    (track_led_brightness (fun _ _ => 1) 3 ⟨1, fun _ => 5⟩
        [((4 : Int), (7 : Int)), ((4 : Int), (200 : Int))]).1 =
      [((4 : Int), (7 : Int)), ((4 : Int), (200 : Int))].flatMap
        (fun p => Event.readEv 3 p.1 ::
          update_led_group (fun _ _ => 1) ⟨1, fun _ => 5⟩ p.2) :=
  ⟨(loop_stops_iff_read_error _ _ _ _).1.mpr ⟨(-1, 0), by simp⟩,
   (loop_stops_iff_read_error _ _ _ _).2 (by decide)⟩

/-- The leader-creation call always begins by attempting to open
`/dev/uleds`, whatever the oracle results. -/
theorem create_opens_uleds (o : Oracles) (name : String) :
    Event.openEv "/dev/uleds" o.uleds_open ∈
      (create_led_group_leader o name).2 := by
  unfold create_led_group_leader
  by_cases h1 : o.uleds_open < 0
  · simp [h1]
  · by_cases h2 : o.uleds_write = -1 <;> simp [h1, h2]

/-- C6 counterexample: with a leader name and exactly one follower name
(`argc = 3`) the program does not proceed to setup: it prints the usage
message, exits with code 1, and never attempts an open. -/
theorem single_follower_rejected_cex :
    main_run ⟨3, 4, fun i => 10 + (i : Int), fun _ _ => 1, []⟩
        ["prog", "leader", "f1"] = (1, [Event.usageEv]) ∧
    openedOk (main_run ⟨3, 4, fun i => 10 + (i : Int), fun _ _ => 1, []⟩
        ["prog", "leader", "f1"]).2 = [] := by decide

/-- C6 (amended): the program requires a leader name followed by at least
two follower names: whenever fewer than three arguments follow the program
name (`argc < 4`) it prints the usage message and exits with code 1
without attempting device setup; with three or more it proceeds to setup
(the `/dev/uleds` open is attempted). -/
theorem usage_unless_two_followers (o : Oracles) (argv : List String) :
    (argv.length < 4 → main_run o argv = (1, [Event.usageEv])) ∧
    (4 ≤ argv.length →
      Event.openEv "/dev/uleds" o.uleds_open ∈ (main_run o argv).2) := by
  constructor
  · intro h
    simp [main_run, h]
  · intro h
    unfold main_run
    rw [if_neg (by omega)]
    set c := create_led_group_leader o (argv.getD 1 "") with hc
    set a := add_followers o led_group.init 0 (argv.drop 2) with ha
    have hmem : Event.openEv "/dev/uleds" o.uleds_open ∈ c.2 := by
      rw [hc]; exact create_opens_uleds o (argv.getD 1 "")
    by_cases h1 : c.1 = -1
    · simp [h1, List.mem_append, hmem]
    · by_cases h2 : a.2.1 = true <;> simp [h1, h2, List.mem_append, hmem]

/-- Witness for C6 (amended): two-argument and four-argument command
lines. -/
theorem usage_unless_two_followers_witness :
    main_run ⟨3, 4, fun i => 10 + (i : Int), fun _ _ => 1, []⟩ ["prog", "l"] =
      (1, [Event.usageEv]) ∧
    Event.openEv "/dev/uleds" 3 ∈
      (main_run ⟨3, 4, fun i => 10 + (i : Int), fun _ _ => 1, []⟩
        ["prog", "l", "f1", "f2"]).2 :=
  ⟨(usage_unless_two_followers _ _).1 (by decide),
   (usage_unless_two_followers
     ⟨3, 4, fun i => 10 + (i : Int), fun _ _ => 1, []⟩ _).2 (by decide)⟩

/-- C7: the process exit code is 0 exactly when control reached the mirror
loop — enough arguments, leader creation did not fail, and every follower
was added — and every setup failure exits with code 1; the exit code is
always 0 or 1. -/
theorem exit_zero_iff_setup_ok (o : Oracles) (argv : List String) :
    ((main_run o argv).1 = 0 ↔ setup_ok o argv) ∧
    ((main_run o argv).1 = 0 ∨ (main_run o argv).1 = 1) := by
  unfold main_run setup_ok
  by_cases h : argv.length < 4
  · have h4 : ¬ 4 ≤ argv.length := by omega
    simp [h, h4]
  · rw [if_neg h]
    set c := create_led_group_leader o (argv.getD 1 "") with hc
    set a := add_followers o led_group.init 0 (argv.drop 2) with ha
    by_cases h1 : c.1 = -1
    · simp [h1]
    · by_cases h2 : a.2.1 = true
      · simp [h1, h2, Nat.not_lt.mp h]
      · simp [h1, h2]

/-! ## Descriptor bookkeeping lemmas for the resource-lifetime claim -/

theorem openedOk_append (a b : List Event) :
    openedOk (a ++ b) = openedOk a ++ openedOk b := by
  induction a with
  | nil => rfl
  | cons e rest ih =>
    cases e <;>
      simp only [List.cons_append, openedOk, List.append_eq] <;>
      first
        | exact ih
        | (split <;> simp [ih])

theorem closeCount_append (a b : List Event) (f : Int) :
    closeCount (a ++ b) f = closeCount a f + closeCount b f := by
  simp [closeCount]

theorem openedOk_eq_nil {tr : List Event}
    (h : ∀ e ∈ tr, isOpenClose e = false) : openedOk tr = [] := by
  induction tr with
  | nil => rfl
  | cons e rest ih =>
    have he := h e (List.mem_cons_self e rest)
    have hr : ∀ x ∈ rest, isOpenClose x = false :=
      fun x hx => h x (List.mem_cons_of_mem _ hx)
    cases e <;> simp [isOpenClose] at he ⊢ <;> simp [openedOk, ih hr]

theorem closeCount_eq_zero {tr : List Event}
    (h : ∀ e ∈ tr, isOpenClose e = false) (f : Int) : closeCount tr f = 0 := by
  unfold closeCount
  rw [List.countP_eq_zero]
  intro e he
  have := h e he
  cases e <;> simp_all [isOpenClose]

theorem update_led_group_no_open_close (wres : Int → String → Int)
    (g : led_group) (b : Int) :
    ∀ e ∈ update_led_group wres g b, isOpenClose e = false := by
  intro e he
  unfold update_led_group at he
  rw [List.mem_flatMap] at he
  obtain ⟨i, _, hi⟩ := he
  unfold update_led at hi
  by_cases h : wres (g.led_fds i) (snprintf_buf b) < 0 <;> simp [h] at hi
  · rcases hi with h1 | h1 | h1 <;> subst h1 <;> rfl
  · rcases hi with h1 | h1 <;> subst h1 <;> rfl

theorem track_no_open_close (wres : Int → String → Int) (fd : Int)
    (g : led_group) (reads : List (Int × Int)) :
    ∀ e ∈ (track_led_brightness wres fd g reads).1, isOpenClose e = false := by
  induction reads with
  | nil => intro e he; simp [track_led_brightness] at he
  | cons p rest ih =>
    obtain ⟨r, b⟩ := p
    intro e he
    by_cases h : r = -1 <;> simp [track_led_brightness, h] at he
    · rcases he with h1 | h1 <;> subst h1 <;> rfl
    · rcases he with h1 | h1 | h1
      · subst h1; rfl
      · exact update_led_group_no_open_close wres g b e h1
      · exact ih e h1

theorem add_by_name_open_fail (fd : Int) (g : led_group) (name : String)
    (h : fd < 0) :
    add_led_by_name_to_led_group fd g name =
      (g, false, [Event.openEv (led_brightness_path name) fd]) := by
  simp [add_led_by_name_to_led_group, h]

theorem add_by_name_capacity (fd : Int) (g : led_group) (name : String)
    (h : ¬ fd < 0) (hc : MAX_LEDS_IN_GROUP ≤ g.count) :
    add_led_by_name_to_led_group fd g name =
      (g, false,
        [Event.openEv (led_brightness_path name) fd, Event.closeEv fd]) := by
  simp [add_led_by_name_to_led_group, add_led_by_fd_to_led_group, h, hc]

theorem add_by_name_success (fd : Int) (g : led_group) (name : String)
    (h : ¬ fd < 0) (hc : ¬ MAX_LEDS_IN_GROUP ≤ g.count) :
    add_led_by_name_to_led_group fd g name =
      ((add_led_by_fd_to_led_group g fd).1, true,
        [Event.openEv (led_brightness_path name) fd]) := by
  simp [add_led_by_name_to_led_group, add_led_by_fd_to_led_group, h, hc]

theorem membersCount_add (g : led_group) (fd : Int) (f : Int)
    (h : g.count < MAX_LEDS_IN_GROUP) :
    membersCount (add_led_by_fd_to_led_group g fd).1 f =
      membersCount g f + (if fd = f then 1 else 0) := by
  unfold membersCount
  rw [membersList_add g fd h, List.count_append]
  by_cases hf : fd = f <;>
    simp [hf, List.count_cons, List.count_nil, beq_iff_eq]

/-- Descriptor-count balance of the follower-population loop: closes seen
in its trace plus members afterwards equal members before plus successful
opens.  Every successfully opened descriptor either stays in the group or
was closed within the loop. -/
theorem add_followers_balance (o : Oracles) (names : List String) :
    ∀ (g : led_group) (idx : Nat) (f : Int),
      closeCount (add_followers o g idx names).2.2 f +
        membersCount (add_followers o g idx names).1 f =
      membersCount g f + openCount (add_followers o g idx names).2.2 f := by
  induction names with
  | nil =>
    intro g idx f
    simp [add_followers, closeCount, openCount, openedOk]
  | cons name rest ih =>
    intro g idx f
    by_cases h1 : o.follower_open idx < 0
    · have hstep := add_by_name_open_fail (o.follower_open idx) g name h1
      simp only [add_followers, hstep]
      simp [closeCount, openCount, openedOk, List.countP_cons, h1,
        Int.not_le.mpr h1]
    · by_cases h2 : MAX_LEDS_IN_GROUP ≤ g.count
      · have hstep := add_by_name_capacity (o.follower_open idx) g name h1 h2
        have h0 : 0 ≤ o.follower_open idx := by omega
        simp only [add_followers, hstep]
        by_cases hf : o.follower_open idx = f
        · have h0f : 0 ≤ f := hf ▸ h0
          simp [closeCount, openCount, openedOk, List.countP_cons, h0, hf,
            h0f, List.count_cons, List.count_nil, beq_iff_eq]
          omega
        · simp [closeCount, openCount, openedOk, List.countP_cons, h0, hf,
            List.count_cons, List.count_nil, beq_iff_eq]
      · have hstep := add_by_name_success (o.follower_open idx) g name h1 h2
        have h0 : 0 ≤ o.follower_open idx := by omega
        have ihh := ih (add_led_by_fd_to_led_group g (o.follower_open idx)).1
          (idx + 1) f
        have hm := membersCount_add g (o.follower_open idx) f (by omega)
        simp only [add_followers, hstep]
        by_cases hf : o.follower_open idx = f
        · have h0f : 0 ≤ f := hf ▸ h0
          simp [closeCount, openCount, openedOk, List.countP_cons, h0, hf,
            h0f, List.count_cons, List.count_nil, beq_iff_eq] at ihh hm ⊢
          omega
        · simp [closeCount, openCount, openedOk, List.countP_cons, h0, hf,
            List.count_cons, List.count_nil, beq_iff_eq] at ihh hm ⊢
          omega

/-- Every successful open recorded by the follower-population loop started
at call index `idx` comes from the oracle at some call index `≥ idx`. -/
theorem add_followers_opened_from (o : Oracles) (names : List String) :
    ∀ (g : led_group) (idx : Nat) (f : Int),
      f ∈ openedOk (add_followers o g idx names).2.2 →
      ∃ i, idx ≤ i ∧ o.follower_open i = f ∧ 0 ≤ f := by
  induction names with
  | nil =>
    intro g idx f hf
    simp [add_followers, openedOk] at hf
  | cons name rest ih =>
    intro g idx f hf
    by_cases h1 : o.follower_open idx < 0
    · have hstep := add_by_name_open_fail (o.follower_open idx) g name h1
      simp only [add_followers, hstep] at hf
      simp [openedOk, Int.not_le.mpr h1] at hf
    · have h0 : 0 ≤ o.follower_open idx := by omega
      by_cases h2 : MAX_LEDS_IN_GROUP ≤ g.count
      · have hstep := add_by_name_capacity (o.follower_open idx) g name h1 h2
        simp only [add_followers, hstep] at hf
        simp [openedOk, h0] at hf
        exact ⟨idx, Nat.le_refl idx, hf.symm, hf ▸ h0⟩
      · have hstep := add_by_name_success (o.follower_open idx) g name h1 h2
        simp only [add_followers, hstep] at hf
        simp [openedOk, h0] at hf
        rcases hf with hf | hf
        · exact ⟨idx, Nat.le_refl idx, hf.symm, hf ▸ h0⟩
        · obtain ⟨i, hi, hv, hp⟩ :=
            ih (add_led_by_fd_to_led_group g (o.follower_open idx)).1
              (idx + 1) f hf
          exact ⟨i, by omega, hv, hp⟩

/-- With an injective open oracle (the OS never returns the same
descriptor for two opens that both succeed while earlier ones stay open),
no descriptor is recorded as successfully opened twice. -/
theorem add_followers_openCount_le_one (o : Oracles)
    (Hinj : ∀ i j, 0 ≤ o.follower_open i →
      o.follower_open i = o.follower_open j → i = j)
    (names : List String) :
    ∀ (g : led_group) (idx : Nat) (f : Int),
      openCount (add_followers o g idx names).2.2 f ≤ 1 := by
  induction names with
  | nil =>
    intro g idx f
    simp [add_followers, openCount, openedOk]
  | cons name rest ih =>
    intro g idx f
    by_cases h1 : o.follower_open idx < 0
    · have hstep := add_by_name_open_fail (o.follower_open idx) g name h1
      simp only [add_followers, hstep]
      simp [openCount, openedOk, Int.not_le.mpr h1]
    · have h0 : 0 ≤ o.follower_open idx := by omega
      by_cases h2 : MAX_LEDS_IN_GROUP ≤ g.count
      · have hstep := add_by_name_capacity (o.follower_open idx) g name h1 h2
        simp only [add_followers, hstep]
        by_cases hf : o.follower_open idx = f
        · have h0f : 0 ≤ f := hf ▸ h0
          simp [openCount, openedOk, h0, hf, h0f, List.count_cons,
            List.count_nil, beq_iff_eq]
        · simp [openCount, openedOk, h0, hf, List.count_cons,
            List.count_nil, beq_iff_eq]
      · have hstep := add_by_name_success (o.follower_open idx) g name h1 h2
        simp only [add_followers, hstep]
        by_cases hf : o.follower_open idx = f
        · have h0f : 0 ≤ f := hf ▸ h0
          have hnot : f ∉ openedOk (add_followers o
              (add_led_by_fd_to_led_group g (o.follower_open idx)).1
              (idx + 1) rest).2.2 := by
            intro hmem
            obtain ⟨i, hi, hv, hp⟩ := add_followers_opened_from o rest
              (add_led_by_fd_to_led_group g (o.follower_open idx)).1
              (idx + 1) f hmem
            have : i = idx := Hinj i idx (hv ▸ hp) (by rw [hv, hf])
            omega
          have hz := List.count_eq_zero_of_not_mem hnot
          rw [hf] at hz
          simp [openCount, openedOk, h0, hf, h0f, List.count_cons,
            List.count_nil, beq_iff_eq, hz]
        · have ihh := ih (add_led_by_fd_to_led_group g (o.follower_open idx)).1
            (idx + 1) f
          simp [openCount, openedOk, h0, hf, List.count_cons,
            List.count_nil, beq_iff_eq] at ihh ⊢
          omega

theorem create_open_fail (o : Oracles) (nm : String)
    (h : o.uleds_open < 0) :
    create_led_group_leader o nm =
      (o.uleds_open,
        [Event.openEv "/dev/uleds" o.uleds_open,
         Event.perrorEv "Failed to create LED group leader"]) := by
  simp [create_led_group_leader, h]

theorem create_reg_fail (o : Oracles) (nm : String)
    (h : ¬ o.uleds_open < 0) (h2 : o.uleds_write = -1) :
    create_led_group_leader o nm =
      (-1,
        [Event.openEv "/dev/uleds" o.uleds_open,
         Event.regWrite o.uleds_open (strlcpy_str nm LED_MAX_NAME_SIZE)
           max_brightness o.uleds_write,
         Event.perrorEv "Failed to create LED group leader",
         Event.closeEv o.uleds_open]) := by
  simp [create_led_group_leader, h, h2]

theorem create_ok (o : Oracles) (nm : String)
    (h : ¬ o.uleds_open < 0) (h2 : ¬ o.uleds_write = -1) :
    create_led_group_leader o nm =
      (o.uleds_open,
        [Event.openEv "/dev/uleds" o.uleds_open,
         Event.regWrite o.uleds_open (strlcpy_str nm LED_MAX_NAME_SIZE)
           max_brightness o.uleds_write]) := by
  simp [create_led_group_leader, h, h2]

theorem openedOk_map_close (l : List Int) :
    openedOk (l.map Event.closeEv) = [] := by
  induction l with
  | nil => rfl
  | cons x rest ih => simpa [openedOk] using ih

theorem close_leds_eq_map (g : led_group) :
    close_led_group_leds g = (membersList g).map Event.closeEv := by
  unfold close_led_group_leds membersList
  rw [List.map_map]
  rfl

theorem openedOk_close_leds (g : led_group) :
    openedOk (close_led_group_leds g) = [] := by
  rw [close_leds_eq_map]
  exact openedOk_map_close _

theorem membersCount_init (f : Int) : membersCount led_group.init f = 0 := rfl

/-- C3: on every code path of `main` — missing arguments, leader open
failure, leader registration failure (control handle opened but the
registration write failed), failure to add the k-th follower, and normal
loop termination — every descriptor that was ever successfully opened is
closed exactly once before `main` returns.  The hypotheses say the OS
never hands out the same descriptor twice among the opens that succeed
while all stay open. -/
theorem closeCount_nil (f : Int) : closeCount [] f = 0 := rfl

theorem closeCount_closeEv (x f : Int) :
    closeCount [Event.closeEv x] f = if x = f then 1 else 0 := by
  by_cases h : x = f <;> simp [closeCount, List.countP_cons, h]

/-- C3: on every code path of `main` — missing arguments, leader open
failure, leader registration failure (control handle opened but the
registration write failed), failure to add the k-th follower, and normal
loop termination — every descriptor that was ever successfully opened is
closed exactly once before `main` returns.  The hypotheses say the OS
never hands out the same descriptor twice among the opens that succeed
while all stay open. -/
theorem main_closes_every_opened_fd_once (o : Oracles) (argv : List String)
    (Hinj : ∀ i j, 0 ≤ o.follower_open i →
      o.follower_open i = o.follower_open j → i = j)
    (HL : ∀ i, 0 ≤ o.follower_open i → o.follower_open i ≠ o.uleds_open) :
    ∀ f, f ∈ openedOk (main_run o argv).2 →
      closeCount (main_run o argv).2 f = 1 := by
  intro f hf
  unfold main_run at hf ⊢
  by_cases h : argv.length < 4
  · rw [if_pos h] at hf
    simp [openedOk] at hf
  · rw [if_neg h] at hf ⊢
    set nm := argv.getD 1 "" with hnm
    set a := add_followers o led_group.init 0 (argv.drop 2) with ha
    have hbal := add_followers_balance o (argv.drop 2) led_group.init 0 f
    have hle1 := add_followers_openCount_le_one o Hinj (argv.drop 2)
      led_group.init 0 f
    rw [← ha] at hbal hle1
    rw [membersCount_init] at hbal
    have htr0 : openedOk (track_led_brightness o.wres o.uleds_open a.1
        o.reads).1 = [] :=
      openedOk_eq_nil (track_no_open_close o.wres o.uleds_open a.1 o.reads)
    have hc3 : closeCount (track_led_brightness o.wres o.uleds_open a.1
        o.reads).1 f = 0 :=
      closeCount_eq_zero (track_no_open_close o.wres o.uleds_open a.1
        o.reads) f
    by_cases hA : o.uleds_open < 0
    · rw [create_open_fail o nm hA] at hf ⊢
      dsimp only at hf ⊢
      by_cases hB : o.uleds_open = -1
      · rw [if_pos hB] at hf
        simp [openedOk_append, openedOk, Int.not_le.mpr hA] at hf
      · rw [if_neg hB] at hf ⊢
        have hmem : f ∈ openedOk a.2.2 := by
          by_cases hok : a.2.1 = true <;>
            simp [hok, openedOk_append, openedOk, Int.not_le.mpr hA, htr0,
              openedOk_close_leds] at hf <;>
            exact hf
        have hne0 : openCount a.2.2 f ≠ 0 := by
          intro h0
          unfold openCount at h0
          exact (List.count_eq_zero.mp h0) hmem
        have hc1 : closeCount [Event.openEv "/dev/uleds" o.uleds_open,
            Event.perrorEv "Failed to create LED group leader"] f = 0 := rfl
        by_cases hok : a.2.1 = true
        · rw [if_pos hok]
          dsimp only
          rw [closeCount_append, closeCount_append, closeCount_append,
            closeCount_append, hc1, hc3, if_neg (Int.not_le.mpr hA),
            closeCount_nil, closeCount_close_led_group_leds]
          omega
        · rw [if_neg hok]
          dsimp only
          rw [closeCount_append, closeCount_append, closeCount_append,
            hc1, if_neg (Int.not_le.mpr hA),
            closeCount_nil, closeCount_close_led_group_leds]
          omega
    · have h0A : 0 ≤ o.uleds_open := by omega
      by_cases hW : o.uleds_write = -1
      · rw [create_reg_fail o nm hA hW] at hf ⊢
        dsimp only at hf ⊢
        rw [if_pos rfl] at hf ⊢
        simp [openedOk_append, openedOk, h0A] at hf
        subst hf
        simp [closeCount_append, closeCount, List.countP_cons]
      · rw [create_ok o nm hA hW] at hf ⊢
        dsimp only at hf ⊢
        have hne1 : ¬ (o.uleds_open = -1) := by omega
        rw [if_neg hne1] at hf ⊢
        have hsplit : f = o.uleds_open ∨ f ∈ openedOk a.2.2 := by
          by_cases hok : a.2.1 = true <;>
            simp [hok, openedOk_append, openedOk, h0A, htr0,
              openedOk_close_leds] at hf <;>
            tauto
        have hc1 : closeCount [Event.openEv "/dev/uleds" o.uleds_open,
            Event.regWrite o.uleds_open (strlcpy_str nm LED_MAX_NAME_SIZE)
              max_brightness o.uleds_write] f = 0 := rfl
        rcases hsplit with hfo | hmem
        · have hnm2 : openCount a.2.2 f = 0 := by
            unfold openCount
            rw [List.count_eq_zero]
            intro hmem
            obtain ⟨i, _, hvi, hpos⟩ :=
              add_followers_opened_from o (argv.drop 2) led_group.init 0 f
                (ha ▸ hmem)
            exact HL i (hvi ▸ hpos) (hfo ▸ hvi)
          by_cases hok : a.2.1 = true
          · rw [if_pos hok]
            dsimp only
            rw [closeCount_append, closeCount_append, closeCount_append,
              closeCount_append, hc1, hc3, if_pos h0A, closeCount_closeEv,
              if_pos hfo.symm, closeCount_close_led_group_leds]
            omega
          · rw [if_neg hok]
            dsimp only
            rw [closeCount_append, closeCount_append, closeCount_append,
              hc1, if_pos h0A, closeCount_closeEv,
              if_pos hfo.symm, closeCount_close_led_group_leds]
            omega
        · obtain ⟨i, _, hvi, hpos⟩ :=
            add_followers_opened_from o (argv.drop 2) led_group.init 0 f
              (ha ▸ hmem)
          have hne0 : openCount a.2.2 f ≠ 0 := by
            intro h0
            unfold openCount at h0
            exact (List.count_eq_zero.mp h0) hmem
          have hfneq : o.uleds_open ≠ f := fun hx =>
            HL i (hvi ▸ hpos) (by rw [hvi, hx])
          by_cases hok : a.2.1 = true
          · rw [if_pos hok]
            dsimp only
            rw [closeCount_append, closeCount_append, closeCount_append,
              closeCount_append, hc1, hc3, if_pos h0A, closeCount_closeEv,
              if_neg hfneq, closeCount_close_led_group_leds]
            omega
          · rw [if_neg hok]
            dsimp only
            rw [closeCount_append, closeCount_append, closeCount_append,
              hc1, if_pos h0A, closeCount_closeEv,
              if_neg hfneq, closeCount_close_led_group_leds]
            omega

/-- Witness for C3: a full run (leader descriptor 3, followers 10 and 11,
one successful read) closes the leader and a follower exactly once. -/
theorem main_closes_every_opened_fd_once_witness :
    (∀ i j : Nat, 0 ≤ 10 + (i : Int) → 10 + (i : Int) = 10 + (j : Int) →
      i = j) ∧
    (∀ i : Nat, 0 ≤ 10 + (i : Int) → 10 + (i : Int) ≠ (3 : Int)) ∧
    ((3 : Int) ∈ openedOk (main_run ⟨3, 4, fun i => 10 + (i : Int),
        fun _ _ => 1, [((4 : Int), (9 : Int))]⟩ ["prog", "l", "f1", "f2"]).2 ∧
     closeCount (main_run ⟨3, 4, fun i => 10 + (i : Int), fun _ _ => 1,
        [((4 : Int), (9 : Int))]⟩ ["prog", "l", "f1", "f2"]).2 3 = 1 ∧
     (10 : Int) ∈ openedOk (main_run ⟨3, 4, fun i => 10 + (i : Int),
        fun _ _ => 1, [((4 : Int), (9 : Int))]⟩ ["prog", "l", "f1", "f2"]).2 ∧
     closeCount (main_run ⟨3, 4, fun i => 10 + (i : Int), fun _ _ => 1,
        [((4 : Int), (9 : Int))]⟩ ["prog", "l", "f1", "f2"]).2 10 = 1) :=
  ⟨fun i j _ h => by omega,
   fun i _ => by omega,
   by decide,
   main_closes_every_opened_fd_once _ _
     (fun i j _ h => by dsimp only at h; omega)
     (fun i _ => by dsimp only; omega) 3 (by decide),
   by decide,
   main_closes_every_opened_fd_once _ _
     (fun i j _ h => by dsimp only at h; omega)
     (fun i _ => by dsimp only; omega) 10 (by decide)⟩

end LedGroup
